import Mathlib

/-!
Verification of the webbwave repository: a generative ambient sound engine
driven by telescope observation metadata.

The development shallowly embeds the relevant source files:
  * src/src/audio/DataMapper.ts            (parameter mapper, pure)
  * src/unnamed/part_002                   (9 voice AmbientEngine variant)
  * src/src/audio/AmbientEngine.ts         (4 voice AmbientEngine variant)
  * src/unnamed/part_000 and part_001      (HTTP proxy handlers)

Machine numbers are idealised as real numbers; where NaN propagation of
JavaScript arithmetic is itself the property under study, a dedicated JSNum
type models it.  Web Audio parameter scheduling calls are modelled as an
explicit event trace; engine methods become functions from an explicit
engine state to a new state paired with the list of scheduling events the
method issues, in source order.
-/

namespace Webbwave

/-! ## String helpers

JavaScript `s.includes(sub)` is a contiguous substring test.  We model it by
structural recursion on character lists. -/

/-- Model of a prefix test on character lists: `charsStartWith sub l` is true
iff `sub` occurs at the very start of `l`. -/
def charsStartWith : List Char → List Char → Bool
  | [], _ => true
  | _ :: _, [] => false
  | c :: cs, d :: ds => c == d && charsStartWith cs ds

/-- Model of a contiguous occurrence test: `charsOccur sub l` is true iff
`sub` occurs contiguously somewhere in `l`.  -/
def charsOccur (sub : List Char) : List Char → Bool
  | [] => sub.isEmpty
  | d :: ds => charsStartWith sub (d :: ds) || charsOccur sub ds

/-- Model of the JavaScript string method `s.includes(sub)`. -/
def strContains (s sub : String) : Bool :=
  charsOccur sub.data s.data

/-- Model of the JavaScript string method `s.toLowerCase()` (ASCII): each
character is lowered individually. -/
def jsToLower (s : String) : String :=
  ⟨s.data.map Char.toLower⟩

/-- Model of `parseInt` on a string of decimal digit characters. -/
def digitsToNat (cs : List Char) : ℕ :=
  cs.foldl (fun n c => 10 * n + (c.toNat - 48)) 0

/-! ## JavaScript number semantics (for NaN propagation)

The claims about malformed observation snapshots are about what JavaScript
arithmetic does with a non numeric (NaN) field, so we model a JS number as
either NaN or a real number, with the IEEE rule that NaN propagates through
arithmetic, and that `Math.pow(b, NaN) = NaN`. -/

/-- JavaScript number: NaN or a (finite, idealised) real value. -/
inductive JSNum where
  | nan : JSNum
  | num : ℝ → JSNum

/-- JavaScript addition: NaN propagates. -/
def jsAdd : JSNum → JSNum → JSNum
  | .nan, _ => .nan
  | _, .nan => .nan
  | .num a, .num b => .num (a + b)

/-- JavaScript multiplication: NaN propagates. -/
def jsMul : JSNum → JSNum → JSNum
  | .nan, _ => .nan
  | _, .nan => .nan
  | .num a, .num b => .num (a * b)

/-- JavaScript division: NaN propagates (the divisors used by the mapper are
the nonzero literals 180 and 360, so the division by zero case never arises
and is not modelled). -/
noncomputable def jsDiv : JSNum → JSNum → JSNum
  | .nan, _ => .nan
  | _, .nan => .nan
  | .num a, .num b => .num (a / b)

/-- JavaScript `Math.pow`: NaN in either position gives NaN; on numbers it is
the real power function. -/
noncomputable def jsPow : JSNum → JSNum → JSNum
  | .nan, _ => .nan
  | _, .nan => .nan
  | .num a, .num b => .num (a ^ b)

/-! ## Parameter Mapper — src/src/audio/DataMapper.ts -/

/-- ObservationData from src/src/data/JWSTFetcher.ts, idealised: `ra` and
`dec` are real numbers (the TypeScript type is `number`), string fields are
strings, and the timestamp is an integer epoch value. -/
structure ObservationData where
  targetName : String
  ra : ℝ
  dec : ℝ
  instrument : String
  filter : String
  targetType : String
  timestamp : ℤ

/-- MappedParams from src/src/audio/DataMapper.ts. -/
structure MappedParams where
  filterCutoffHz : ℝ
  reverbMix : ℝ
  lfoRateHz : ℝ
  harmonicCount : ℕ
  density : ℝ

/-- DEFAULT_OBSERVATION from src/src/data/JWSTFetcher.ts (the timestamp is a
fresh Date in the source; it plays no role and is fixed to 0 here). -/
def DEFAULT_OBSERVATION : ObservationData :=
  { targetName := "SMACS 0723"
    ra := 110.84
    dec := -73.45
    instrument := "NIRCam"
    filter := "F277W"
    targetType := "galaxy cluster"
    timestamp := 0 }

/-- decToFilterCutoff from DataMapper.ts:
`const t = (dec + 90) / 180; return 200 * Math.pow(8, t)`. -/
noncomputable def decToFilterCutoff (dec : ℝ) : ℝ :=
  200 * (8 : ℝ) ^ ((dec + 90) / 180)

/-- instrumentToHarmonics from DataMapper.ts: case insensitive substring
lookup on the instrument name, default 3. -/
def instrumentToHarmonics (instrument : String) : ℕ :=
  let l := jsToLower instrument
  if strContains l "nirspec" then 4
  else if strContains l "nircam" then 3
  else if strContains l "miri" then 2
  else if strContains l "niriss" then 3
  else if strContains l "fgs" then 1
  else 3

/-- filterToReverbMix from DataMapper.ts: the digits embedded in the filter
name, read as a wavelength, are scaled by 1/2550 and clamped to [0.25, 0.9];
a digit free filter name falls back to 0.55. -/
noncomputable def filterToReverbMix (filter : String) : ℝ :=
  let digits := filter.data.filter Char.isDigit
  if digits.isEmpty then 0.55
  else max 0.25 (min 0.9 ((digitsToNat digits : ℝ) / 2550))

/-- targetTypeToDensity from DataMapper.ts: case insensitive substring
keyword match, in source order nebula, galaxy, field, cluster, star, with
neutral default 0.5. -/
def targetTypeToDensity (type : String) : ℝ :=
  let l := jsToLower type
  if strContains l "nebula" then 0.9
  else if strContains l "galaxy" then 0.8
  else if strContains l "field" then 1.0
  else if strContains l "cluster" then 0.6
  else if strContains l "star" then 0.3
  else 0.5

/-- mapObservation from DataMapper.ts, on numeric inputs. -/
noncomputable def mapObservation (obs : ObservationData) : MappedParams :=
  { filterCutoffHz := decToFilterCutoff obs.dec
    reverbMix := filterToReverbMix obs.filter
    lfoRateHz := 0.008 + (obs.ra / 360) * 0.07
    harmonicCount := instrumentToHarmonics obs.instrument
    density := targetTypeToDensity obs.targetType }

/-- ObservationData as it exists at runtime in JavaScript: the numeric fields
`ra` and `dec` can be NaN (the upstream fetcher produces them with
`Number(...)`, which yields NaN on non numeric input). -/
structure ObservationJS where
  targetName : String
  ra : JSNum
  dec : JSNum
  instrument : String
  filter : String
  targetType : String
  timestamp : ℤ

/-- MappedParams with JavaScript number semantics on the two fields computed
from the numeric inputs `ra` and `dec`; the three fields computed from string
inputs are always numeric. -/
structure MappedParamsJS where
  filterCutoffHz : JSNum
  reverbMix : ℝ
  lfoRateHz : JSNum
  harmonicCount : ℕ
  density : ℝ

/-- decToFilterCutoff under JavaScript number semantics. -/
noncomputable def decToFilterCutoffJS (dec : JSNum) : JSNum :=
  jsMul (.num 200) (jsPow (.num 8) (jsDiv (jsAdd dec (.num 90)) (.num 180)))

/-- mapObservation under JavaScript number semantics.  The string derived
fields are exactly those of `mapObservation`; `filterCutoffHz` and
`lfoRateHz` follow JS arithmetic on the possibly NaN inputs. -/
noncomputable def mapObservationJS (obs : ObservationJS) : MappedParamsJS :=
  { filterCutoffHz := decToFilterCutoffJS obs.dec
    reverbMix := filterToReverbMix obs.filter
    lfoRateHz := jsAdd (.num 0.008) (jsMul (jsDiv obs.ra (.num 360)) (.num 0.07))
    harmonicCount := instrumentToHarmonics obs.instrument
    density := targetTypeToDensity obs.targetType }

/-- Observation snapshot whose numeric fields are both NaN — the shape that
reaches the mapper when the upstream JSON carries non numeric `s_ra` and
`s_dec` values (the fetcher coerces them with `Number(...)`). -/
def malformedObservation : ObservationJS :=
  { targetName := "SMACS 0723"
    ra := .nan
    dec := .nan
    instrument := ""
    filter := ""
    targetType := "galaxy cluster"
    timestamp := 0 }

/-! ## The 9 voice AmbientEngine — src/unnamed/part_002

The engine owns a Web Audio graph.  We model every AudioParam of that graph
with an identifier, and every scheduling call the engine issues
(`setTargetAtTime`, `linearRampToValueAtTime`, `cancelScheduledValues`, and
the direct `.value =` assignments at build time) as an event.  A method of
the class becomes a function from the explicit engine state (the mutable
instance fields) to a new state paired with the list of events it issues, in
source order.  The null checks `!this.ctx` and on the node fields all test
whether `start()` has run at least once (the nodes are built there and never
nulled), which the single flag `ctxSet` captures; `isStarted` is the
`_isStarted` flag, which `stop()` resets while the nodes survive. -/

/-- Identifiers for every AudioParam the 9 voice engine schedules on. -/
inductive Param where
  | masterGain
  | reverbGain
  | dryGain
  | filterFreq
  | filterQ
  | lfoFreq
  | lfoDepth
  | voiceGain (i : Fin 9)
  | voiceFreq (i : Fin 9)
  | voiceDriftRate (i : Fin 9)
  | voiceDriftDepth (i : Fin 9)
  | grainDelayTime (i : Fin 6)
  | grainFeedback (i : Fin 6)
  | grainInGain (i : Fin 6)
  | grainOutGain (i : Fin 6)
  | grainModRate (i : Fin 6)
  | grainModDepth (i : Fin 6)
  | grainInputFeed
  | grainOutMaster
deriving DecidableEq

/-- One Web Audio parameter scheduling call.
`setTarget p v tc` is `p.setTargetAtTime(v, now, tc)`;
`linearRamp p v dt` is `p.linearRampToValueAtTime(v, now + dt)`;
`setValue p v` is the direct assignment `p.value = v`;
`cancelSched p` is `p.cancelScheduledValues(now)`. -/
inductive AudioEvent where
  | setValue (p : Param) (v : ℝ)
  | setTarget (p : Param) (v : ℝ) (tc : ℝ)
  | linearRamp (p : Param) (v : ℝ) (dt : ℝ)
  | cancelSched (p : Param)

/-- Parameter an event addresses. -/
def AudioEvent.param : AudioEvent → Param
  | .setValue p _ => p
  | .setTarget p _ _ => p
  | .linearRamp p _ _ => p
  | .cancelSched p => p

/-- Grain line feedback gain targets scheduled in an event list. -/
def grainFbTargets (evs : List AudioEvent) : List ℝ :=
  evs.filterMap fun e =>
    match e with
    | .setTarget (.grainFeedback _) v _ => some v
    | _ => none

/-- Mutable instance fields of the 9 voice AmbientEngine. -/
structure EngineState where
  ctxSet : Bool
  isStarted : Bool
  blend : ℝ
  cutoffOverride : Option ℝ
  zoomNorm : ℝ
  voiceDensity : Fin 9 → ℝ
  rootSemitones : ℝ
  chordMode : String
  unfoldAmount : ℝ
  pulseAmount : ℝ
  evolveTimerSet : Bool

/-- Initial field values of a fresh AmbientEngine instance. -/
def initState : EngineState :=
  { ctxSet := false
    isStarted := false
    blend := 0.8
    cutoffOverride := none
    zoomNorm := 0.2
    voiceDensity := fun _ => 1.0
    rootSemitones := 0
    chordMode := "MAJ"
    unfoldAmount := 0.25
    pulseAmount := 0.25
    evolveTimerSet := false }

/-- clamp helper from part_002: `Math.max(min, Math.min(max, value))`. -/
def clamp (value lo hi : ℝ) : ℝ :=
  max lo (min hi value)

/-- RAMP_TIME_S constant from part_002. -/
def RAMP_TIME_S : ℝ := 4.0

/-- CHORD_MODES table from part_002: interval sets in semitones, 9 entries
per mode. -/
def chordModeIntervals (mode : String) : Option (Fin 9 → ℝ) :=
  if mode = "MAJ" then some ![0, 7, 12, 16, 19, 24, 31, 36, 43]
  else if mode = "MIN" then some ![0, 7, 12, 15, 19, 24, 31, 36, 43]
  else if mode = "DOM7" then some ![0, 7, 10, 12, 16, 19, 24, 31, 34]
  else if mode = "MAJ7" then some ![0, 7, 11, 12, 16, 19, 24, 31, 35]
  else if mode = "SUS4" then some ![0, 5, 7, 12, 17, 19, 24, 31, 36]
  else if mode = "MIN7" then some ![0, 7, 10, 12, 15, 19, 24, 31, 34]
  else none

/-- buildFreqs from part_002: `CHORD_MODES[mode] ?? CHORD_MODES["MAJ"]`, then
`ROOT_HZ * Math.pow(2, (rootSemitones + iv) / 12)` with ROOT_HZ = 55. -/
noncomputable def buildFreq (rootSemitones : ℝ) (mode : String) (i : Fin 9) : ℝ :=
  55 * (2 : ℝ) ^ ((rootSemitones + (chordModeIntervals mode).getD ![0, 7, 12, 16, 19, 24, 31, 36, 43] i) / 12)

/-- Per voice zoom thresholds from _applyZoom in part_002. -/
def zoomThresholds : Fin 9 → ℝ :=
  ![-0.12, 0.1, 0.22, 0.34, 0.48, 0.6, 0.72, 0.82, 0.9]

/-- Per voice base gains from _applyZoom in part_002. -/
def zoomBaseGains : Fin 9 → ℝ :=
  ![1.0, 0.88, 0.78, 0.64, 0.52, 0.42, 0.32, 0.23, 0.17]

/-- MASTER mix level from _applyZoom in part_002:
`0.36 / Math.sqrt(this.voices.length)` with 9 voices. -/
noncomputable def MASTER_LEVEL : ℝ := 0.36 / Real.sqrt 9

/-- Zoom presence of voice `i` at zoom `value`, from _applyZoom:
`Math.max(0, Math.min(1, (value - thresholds[i]) / 0.12))`. -/
noncomputable def voicePresence (value : ℝ) (i : Fin 9) : ℝ :=
  max 0 (min 1 ((value - zoomThresholds i) / 0.12))

/-- Unfold factor of voice `i`, from _applyZoom: the top two voices scale by
`0.15 + 0.85 * this._unfoldAmount`, the rest by 1. -/
def unfoldFactor (unfoldAmount : ℝ) (i : Fin 9) : ℝ :=
  if 9 - 2 ≤ (i : ℕ) then 0.15 + 0.85 * unfoldAmount else 1

/-- Final per voice gain target computed in _applyZoom:
`MASTER * baseGains[i] * presence * this._voiceDensity[i] * unfold`. -/
noncomputable def voiceGainTarget (st : EngineState) (value : ℝ) (i : Fin 9) : ℝ :=
  MASTER_LEVEL * zoomBaseGains i * voicePresence value i * st.voiceDensity i *
    unfoldFactor st.unfoldAmount i

/-- Events issued by `_applyZoom(value)` in part_002, in source order: per
voice a cancel plus a gain target (TC 0.4), then grain master output, grain
feedbacks, LFO depth and filter Q. -/
noncomputable def applyZoomEvents (st : EngineState) (value : ℝ) : List AudioEvent :=
  ((List.finRange 9).flatMap fun i =>
    [.cancelSched (.voiceGain i),
     .setTarget (.voiceGain i) (voiceGainTarget st value i) 0.4])
  ++ [.setTarget .grainOutMaster (0.05 + value * 0.7) 0.5]
  ++ ((List.finRange 6).map fun i =>
        .setTarget (.grainFeedback i) (0.2 + value * 0.3) 0.5)
  ++ [.setTarget .lfoDepth (0.01 + value * 0.03) 0.5,
      .setTarget .filterQ (2.8 - value * 2.0) 0.5]

/-- Scaled active voice count in updateFromData:
`Math.round((p.harmonicCount / 4) * this.voices.length)`; JavaScript
`Math.round` rounds half up, as does `round` on ℚ. -/
def scaledCount (harmonicCount : ℕ) : ℤ :=
  round (((harmonicCount : ℚ) / 4) * 9)

/-- Events updateFromData issues before its final `_applyZoom` call: filter
cutoff ramp (skipped under a Colour override), reverb wet and dry ramps, LFO
rate ramp, then the grain feedback targets. -/
noncomputable def updateFromDataPre (st : EngineState) (obs : ObservationData) :
    List AudioEvent :=
  let p := mapObservation obs
  (match st.cutoffOverride with
   | none => [.linearRamp .filterFreq p.filterCutoffHz RAMP_TIME_S]
   | some _ => [])
  ++ [.linearRamp .reverbGain ((0.6 + p.reverbMix * 1.2) * st.blend) RAMP_TIME_S,
      .linearRamp .dryGain (max 0.02 (0.2 - p.reverbMix * 0.18)) RAMP_TIME_S,
      .linearRamp .lfoFreq p.lfoRateHz RAMP_TIME_S]
  ++ ((List.finRange 6).map fun i =>
        .setTarget (.grainFeedback i) (0.2 + p.density * 0.3) 1.0)

/-- updateFromData from part_002: a no op unless the context exists and the
engine is started; otherwise it maps the observation, schedules the ramps,
stores the per voice density weights, and concludes with `_applyZoom` on the
current zoom value. -/
noncomputable def updateFromData (st : EngineState) (obs : ObservationData) :
    EngineState × List AudioEvent :=
  if st.ctxSet && st.isStarted then
    let p := mapObservation obs
    let st' := { st with voiceDensity := fun i =>
      if (i : ℤ) < scaledCount p.harmonicCount then p.density else 0 }
    (st', updateFromDataPre st obs ++ applyZoomEvents st' st.zoomNorm)
  else (st, [])

/-- Events updateFromCoords issues before its final `_applyZoom` call. -/
noncomputable def updateFromCoordsPre (st : EngineState) (ra dec : ℝ) :
    List AudioEvent :=
  let tRA := max 0 (min 1 (ra / 360))
  let tDec := max 0 (min 1 ((dec + 90) / 180))
  let shimmer := tRA * 0.5 + tDec * 0.3
  (match st.cutoffOverride with
   | none => [.setTarget .filterFreq (200 * (8 : ℝ) ^ tDec) 0.8]
   | some _ => [])
  ++ [.setTarget .filterQ (0.5 + tDec * 3.5) 0.8,
      .setTarget .reverbGain ((0.5 + tRA * 1.0) * st.blend) 0.8,
      .setTarget .dryGain (max 0.02 (0.2 - tRA * 0.18)) 0.8,
      .setTarget .lfoDepth (0.008 + (1 - tDec) * 0.025) 0.8,
      .setTarget .lfoFreq (0.008 + tRA * 0.1) 0.8]
  ++ ((List.finRange 6).flatMap fun i =>
        [.setTarget (.grainFeedback i) (0.15 + shimmer * 0.4) 0.8,
         .setTarget (.grainOutGain i) (0.3 + shimmer * 0.5) 0.8])
  ++ [.setTarget .grainInputFeed (0.3 + shimmer * 0.5) 0.8]

/-- updateFromCoords from part_002: aim mode update; stores sky position
density weights `1 / Math.sqrt(thresh + 1)` for voices up to
`thresh = Math.round(tDec * 8)` and concludes with `_applyZoom`. -/
noncomputable def updateFromCoords (st : EngineState) (ra dec : ℝ) :
    EngineState × List AudioEvent :=
  if st.ctxSet && st.isStarted then
    let tDec := max 0 (min 1 ((dec + 90) / 180))
    let thresh : ℤ := round (tDec * (9 - 1))
    let st' := { st with voiceDensity := fun i =>
      if (i : ℤ) ≤ thresh then 1 / Real.sqrt ((thresh : ℝ) + 1) else 0 }
    (st', updateFromCoordsPre st ra dec ++ applyZoomEvents st' st.zoomNorm)
  else (st, [])

/-- setVolume from part_002: guarded only on the context and master gain
node; the raw input scales the master level. -/
def setVolume (st : EngineState) (value : ℝ) : EngineState × List AudioEvent :=
  if st.ctxSet then (st, [.setTarget .masterGain (value * 0.82) 0.1])
  else (st, [])

/-- setSpace from part_002: stores the clamped blend, then (context guard
only) schedules reverb, dry and grain targets computed from the raw input. -/
def setSpace (st : EngineState) (value : ℝ) : EngineState × List AudioEvent :=
  let st' := { st with blend := clamp value 0 1 }
  if st.ctxSet then
    (st', [.setTarget .reverbGain (0.32 + value * 1.15) 0.4,
           .setTarget .dryGain (max 0.08 (0.3 - value * 0.16)) 0.4]
      ++ ((List.finRange 6).flatMap fun i =>
            [.setTarget (.grainOutGain i) (0.2 + value * 1.2) 0.6,
             .setTarget (.grainFeedback i) (0.35 + value * 0.45) 0.8]))
  else (st', [])

/-- setColour from part_002: stores the raw input as the cutoff override,
then (context guard only) schedules cutoff `120 * (4000/120) ^ value` and
Q `0.5 + value * value * 6`. -/
noncomputable def setColour (st : EngineState) (value : ℝ) :
    EngineState × List AudioEvent :=
  let st' := { st with cutoffOverride := some value }
  if st.ctxSet then
    (st', [.setTarget .filterFreq (120 * (4000 / 120 : ℝ) ^ value) 0.3,
           .setTarget .filterQ (0.5 + value * value * 6) 0.3])
  else (st', [])

/-- setScatter from part_002: context guard only; grain feedback, modulation
depth and input feed computed from the raw input. -/
def setScatter (st : EngineState) (value : ℝ) : EngineState × List AudioEvent :=
  if st.ctxSet then
    (st, ((List.finRange 6).flatMap fun i =>
            [.setTarget (.grainFeedback i) (0.05 + value * 0.55) 0.5,
             .setTarget (.grainModDepth i) (value * 0.035) 0.5])
      ++ [.setTarget .grainInputFeed (0.15 + value * 0.65) 0.5])
  else (st, [])

/-- setPulse from part_002: context guard, then the clamped input drives LFO
rate and depth and is stored as the pulse amount. -/
def setPulse (st : EngineState) (value : ℝ) : EngineState × List AudioEvent :=
  if st.ctxSet then
    let p := clamp value 0 1
    ({ st with pulseAmount := p },
     [.setTarget .lfoFreq (0.003 + p * 0.217) 0.5,
      .setTarget .lfoDepth (0.005 + p * 0.085) 0.5])
  else (st, [])

/-- setZoom from part_002: stores the clamped zoom, and applies it only when
the engine is started. -/
noncomputable def setZoom (st : EngineState) (value : ℝ) :
    EngineState × List AudioEvent :=
  let st' := { st with zoomNorm := clamp value 0 1 }
  if st.ctxSet && st.isStarted then (st', applyZoomEvents st' st'.zoomNorm)
  else (st', [])

/-- setChord from part_002: stores root and mode, and when started glides
every oscillator to the recomputed frequency with TC 1.5. -/
noncomputable def setChord (st : EngineState) (rootSemitones : ℝ) (mode : String) :
    EngineState × List AudioEvent :=
  let st' := { st with rootSemitones := rootSemitones, chordMode := mode }
  if st.ctxSet && st.isStarted then
    (st', (List.finRange 9).map fun i =>
      .setTarget (.voiceFreq i) (buildFreq rootSemitones mode i) 1.5)
  else (st', [])

/-- Randomness consumed by one evolution tick, plus the current audio values
the tick reads back from the graph (`.value` reads).  Each `r...` field is a
`Math.random()` draw in [0, 1). -/
structure EvolveInputs where
  rUnfold : ℝ
  rCut : ℝ
  rQ : ℝ
  rWet : ℝ
  rDry : ℝ
  rRate : Fin 6 → ℝ
  rDepth : Fin 6 → ℝ
  rFb : Fin 6 → ℝ
  rDrift : Fin 9 → ℝ
  curFilterFreq : ℝ
  curFilterQ : ℝ
  curModDepth : Fin 6 → ℝ
  curFb : Fin 6 → ℝ
  curDrift : Fin 9 → ℝ

/-- Events one evolution tick issues before its final `_applyZoom` call. -/
noncomputable def evolveTickPre (st : EngineState) (inp : EvolveInputs) :
    List AudioEvent :=
  let e := 0.15 + st.pulseAmount * 0.85
  let baseHz := match st.cutoffOverride with
    | some c => 120 * (4000 / 120 : ℝ) ^ c
    | none => inp.curFilterFreq
  [.setTarget .filterFreq
     (clamp (baseHz * (1 + (inp.rCut * 2 - 1) * (0.12 + e * 0.45))) 140 5500) 2.8,
   .setTarget .filterQ
     (clamp (inp.curFilterQ + (inp.rQ * 2 - 1) * (0.2 + e * 1.4)) 0.3 8.0) 3.2,
   .setTarget .reverbGain
     (clamp ((0.32 + st.blend * 1.15) + (inp.rWet * 2 - 1) * (0.08 + e * 0.35)) 0.15 2.2) 3.5,
   .setTarget .dryGain
     (clamp ((max 0.08 (0.3 - st.blend * 0.16)) + (inp.rDry * 2 - 1) * (0.04 + e * 0.14)) 0.03 0.5) 3.5]
  ++ ((List.finRange 6).flatMap fun i =>
        [.setTarget (.grainModRate i) (0.03 + inp.rRate i * (0.12 + e * 0.33)) 3.5,
         .setTarget (.grainModDepth i)
           (clamp (inp.curModDepth i + (inp.rDepth i * 2 - 1) * (0.002 + e * 0.014)) 0.003 0.06) 3.5,
         .setTarget (.grainFeedback i)
           (clamp (inp.curFb i + (inp.rFb i * 2 - 1) * (0.03 + e * 0.12)) 0.08 0.9) 3.2])
  ++ ((List.finRange 9).map fun i =>
        .setTarget (.voiceDriftDepth i)
          (clamp (inp.curDrift i + (inp.rDrift i * 2 - 1) * (0.8 + e * 6.0)) 0.8 24) 4.5)

/-- One tick of the evolution interval from _startEvolution in part_002: a
no op unless the context exists and the engine is started; otherwise a
bounded random walk on the unfold amount, timbre, space, grain motion and
pitch drift, concluded by `_applyZoom` on the current zoom value. -/
noncomputable def evolveTick (st : EngineState) (inp : EvolveInputs) :
    EngineState × List AudioEvent :=
  if st.ctxSet && st.isStarted then
    let e := 0.15 + st.pulseAmount * 0.85
    let unfold' := clamp (st.unfoldAmount + (inp.rUnfold * 2 - 1) * (0.12 + e * 0.34)) 0 1
    let st' := { st with unfoldAmount := unfold' }
    (st', evolveTickPre st inp ++ applyZoomEvents st' st.zoomNorm)
  else (st, [])

/-- Randomness consumed by `start()`: per voice drift oscillator rate and
depth draws, per grain line delay, modulation depth, modulation rate and
feedback draws — each a `Math.random()` value in [0, 1). -/
structure StartRand where
  driftRate : Fin 9 → ℝ
  driftDepth : Fin 9 → ℝ
  gDelay : Fin 6 → ℝ
  gModDepth : Fin 6 → ℝ
  gModRate : Fin 6 → ℝ
  gFb : Fin 6 → ℝ

/-- start from part_002: builds the full graph (initial `.value` writes in
source order), fades the master in over 2 s, applies the current zoom once,
fades the grain cloud in, and arms the evolution timer. -/
noncomputable def start (st : EngineState) (r : StartRand) :
    EngineState × List AudioEvent :=
  let st' := { st with ctxSet := true, isStarted := true, evolveTimerSet := true }
  (st',
    [.setValue .masterGain 0,
     .setValue .reverbGain 1.0,
     .setValue .dryGain 0.24,
     .setValue .filterFreq 1200,
     .setValue .filterQ 1.2,
     .setValue .lfoDepth 0.02,
     .setValue .lfoFreq 0.03]
    ++ ((List.finRange 9).flatMap fun i =>
          [.setValue (.voiceFreq i) (buildFreq st.rootSemitones st.chordMode i),
           .setValue (.voiceGain i) 0,
           .setValue (.voiceDriftRate i) (0.004 + r.driftRate i * 0.03),
           .setValue (.voiceDriftDepth i) (1.5 + r.driftDepth i * 4.5)])
    ++ [.setValue .grainInputFeed 0.5,
        .setValue .grainOutMaster 0]
    ++ ((List.finRange 6).flatMap fun i =>
          [.setValue (.grainDelayTime i) (0.04 + r.gDelay i * 0.18),
           .setValue (.grainFeedback i) (0.25 + r.gFb i * 0.3),
           .setValue (.grainInGain i) (1 / 6),
           .setValue (.grainOutGain i) 0,
           .setValue (.grainModRate i) (0.08 + r.gModRate i * 0.4),
           .setValue (.grainModDepth i) (0.008 + r.gModDepth i * 0.022)])
    ++ [.linearRamp .masterGain 0.8 2.0]
    ++ applyZoomEvents st' st.zoomNorm
    ++ ((List.finRange 6).map fun i =>
          .linearRamp (.grainOutGain i) 0.6 (3.0 + (i : ℝ) * 0.15)))

/-- stop from part_002: context guard, clears the evolution timer, ramps the
master to silence over 0.5 s (the scheduled source stops at now + 0.6 are
not parameter writes), and resets the started flag.  The context and node
fields survive. -/
def stop (st : EngineState) : EngineState × List AudioEvent :=
  if st.ctxSet then
    ({ st with isStarted := false, evolveTimerSet := false },
     [.linearRamp .masterGain 0 0.5])
  else (st, [])

/-! ## The 4 voice AmbientEngine variant — src/src/audio/AmbientEngine.ts

Only its `_applyZoom` presence formula is needed by the claims:
`Math.max(0, Math.min(1, value * 4 - i + 1))`. -/

/-- Zoom presence of voice `i` in the 4 voice variant. -/
noncomputable def voicePresence4 (value : ℝ) (i : Fin 4) : ℝ :=
  max 0 (min 1 (value * 4 - (i : ℝ) + 1))

/-! ## HTTP proxy handlers — src/unnamed/part_000 and part_001

Two serverless proxy variants front the MAST search API with a module level
cache.  We model the cache state, the upstream fetch outcome (resolved with
a status and body, or the fetch promise rejecting), and the response each
handler produces.  `Date.now()` is an explicit integer argument. -/

/-- Module level cache of a proxy instance: `cachedBody` and `cacheTime`. -/
structure ProxyCache where
  cachedBody : Option String
  cacheTime : ℤ

/-- Outcome of the upstream fetch: resolved with an HTTP status and body
text, or rejected (network failure and the like). -/
inductive Upstream where
  | ok (status : ℕ) (body : String)
  | fetchFailed

/-- Response the handler sends: status code, the X-Cache and Cache-Control
headers when set, whether the permissive CORS header was set, and the body.
A Node response that never assigns `statusCode` goes out as 200. -/
structure ProxyResponse where
  status : ℕ
  xCache : Option String
  cacheControl : Option String
  corsStar : Bool
  body : String

/-- CACHE_TTL from both proxy variants: 5 minutes in milliseconds. -/
def CACHE_TTL : ℤ := 5 * 60 * 1000

/-- FALLBACK_BODY from part_001: the hardcoded single observation payload. -/
def FALLBACK_BODY : String :=
  "\x7b\"results\":[\x7b\"targprop\":\"SMACS 0723\",\"targ_ra\":110.84,\"targ_dec\":-73.45,\"instrume\":\"NIRCam\",\"opticalElements\":\"F277W\",\"targtype\":\"galaxy cluster\",\"exp_type\":\"SCIENCE\"\x7d]\x7d"

/-- Fetch `Response.ok`: status in the 2xx range. -/
def upstreamOk (status : ℕ) : Bool :=
  200 ≤ status && status < 300

/-- Cache freshness test shared by both handlers:
`cachedBody && Date.now() - cacheTime < CACHE_TTL`. -/
def cacheFresh (st : ProxyCache) (now : ℤ) : Bool :=
  st.cachedBody.isSome && decide (now - st.cacheTime < CACHE_TTL)

/-- handler from part_001 (the GET variant): CORS and content type headers on
every path; non GET gets 405; a fresh cache is a HIT; an ok upstream is a
MISS and refreshes the cache; a non ok upstream or a rejected fetch serves
the stale cache when present and the hardcoded fallback otherwise, always
with status 200. -/
def handlerGet (method : String) (now : ℤ) (st : ProxyCache) (up : Upstream) :
    ProxyResponse × ProxyCache :=
  if method ≠ "GET" then
    ({ status := 405, xCache := none, cacheControl := none, corsStar := true,
       body := "\x7b\"error\":\"Method not allowed\"\x7d" }, st)
  else if cacheFresh st now then
    ({ status := 200, xCache := some "HIT", cacheControl := some "public, max-age=300",
       corsStar := true, body := st.cachedBody.getD "" }, st)
  else
    match up with
    | .ok status body =>
      if upstreamOk status then
        ({ status := 200, xCache := some "MISS", cacheControl := some "public, max-age=300",
           corsStar := true, body := body },
         { cachedBody := some body, cacheTime := now })
      else
        match st.cachedBody with
        | some cached =>
          ({ status := 200, xCache := some "STALE", cacheControl := some "public, max-age=300",
             corsStar := true, body := cached }, st)
        | none =>
          ({ status := 200, xCache := some "FALLBACK", cacheControl := some "public, max-age=60",
             corsStar := true, body := FALLBACK_BODY }, st)
    | .fetchFailed =>
      match st.cachedBody with
      | some cached =>
        ({ status := 200, xCache := some "STALE", cacheControl := some "public, max-age=300",
           corsStar := true, body := cached }, st)
      | none =>
        ({ status := 200, xCache := some "FALLBACK", cacheControl := some "public, max-age=60",
           corsStar := true, body := FALLBACK_BODY }, st)

/-- handler from part_000 (the POST variant): no method check and no stale or
fallback path.  A fresh cache is a HIT; otherwise the upstream body is cached
unconditionally and its status is forwarded verbatim with `X-Cache: MISS`;
a rejected fetch yields 502 with an error body and no X-Cache header. -/
def handlerPost (now : ℤ) (st : ProxyCache) (up : Upstream) :
    ProxyResponse × ProxyCache :=
  if cacheFresh st now then
    ({ status := 200, xCache := some "HIT", cacheControl := some "public, max-age=300",
       corsStar := true, body := st.cachedBody.getD "" }, st)
  else
    match up with
    | .ok status body =>
      ({ status := status, xCache := some "MISS", cacheControl := some "public, max-age=300",
         corsStar := true, body := body },
       { cachedBody := some body, cacheTime := now })
    | .fetchFailed =>
      ({ status := 502, xCache := none, cacheControl := none, corsStar := true,
         body := "\x7b\"error\":\"fetch failed\"\x7d" }, st)

/-! ## Helper lemmas -/

/-- Bridging lemma: on numeric inputs the JS semantics mapper agrees field by
field with the idealised real valued mapper. -/
theorem mapObservationJS_on_numeric (obs : ObservationData) :
    mapObservationJS
      { targetName := obs.targetName, ra := .num obs.ra, dec := .num obs.dec,
        instrument := obs.instrument, filter := obs.filter,
        targetType := obs.targetType, timestamp := obs.timestamp } =
    { filterCutoffHz := .num (mapObservation obs).filterCutoffHz,
      reverbMix := (mapObservation obs).reverbMix,
      lfoRateHz := .num (mapObservation obs).lfoRateHz,
      harmonicCount := (mapObservation obs).harmonicCount,
      density := (mapObservation obs).density } := rfl

/-- Range of the density keyword table: every branch lies in [0.3, 1]. -/
theorem targetTypeToDensity_bounds (type : String) :
    0.3 ≤ targetTypeToDensity type ∧ targetTypeToDensity type ≤ 1 := by
  unfold targetTypeToDensity
  dsimp only
  split_ifs <;> norm_num

/-- Upper clamp bound: `clamp v lo hi ≤ hi` whenever `lo ≤ hi`. -/
theorem clamp_le_hi {v lo hi : ℝ} (h : lo ≤ hi) : clamp v lo hi ≤ hi :=
  max_le h (min_le_left _ _)

/-- Lower clamp bound: `lo ≤ clamp v lo hi`. -/
theorem lo_le_clamp (v lo hi : ℝ) : lo ≤ clamp v lo hi :=
  le_max_left _ _

/-! ## Claim theorems -/

/-- C1: the Parameter Mapper does not coerce malformed numeric fields.  On
the snapshot whose `ra` and `dec` are NaN (which the upstream fetcher can
hand over, since `Number(...)` of a non numeric JSON value is NaN),
`mapObservation` propagates NaN into both `filterCutoffHz` and `lfoRateHz`
instead of substituting safe defaults, while the string derived fields still
take their documented defaults.  This contradicts the claim (and the
documented design intent that no NaN is ever produced): the code is missing
the coercion the specification requires. -/
theorem mapObservation_nan_propagates :
    (mapObservationJS malformedObservation).filterCutoffHz = JSNum.nan ∧
    (mapObservationJS malformedObservation).lfoRateHz = JSNum.nan ∧
    (mapObservationJS malformedObservation).harmonicCount = 3 ∧
    (mapObservationJS malformedObservation).reverbMix = 0.55 := by
  refine ⟨rfl, rfl, by decide, ?_⟩
  show filterToReverbMix "" = 0.55
  unfold filterToReverbMix
  norm_num

/-- C2: counterexample.  The claim says the default snapshot with target
type "galaxy cluster" resolves density to the "cluster" keyword value 0.6;
the code checks the "galaxy" keyword first, so the density is 0.8, not
0.6. -/
theorem mapObservation_galaxyCluster_density_cex :
    (mapObservation DEFAULT_OBSERVATION).density ≠ 0.6 := by
  show targetTypeToDensity "galaxy cluster" ≠ 0.6
  have h1 : strContains (jsToLower "galaxy cluster") "nebula" = false := by decide
  have h2 : strContains (jsToLower "galaxy cluster") "galaxy" = true := by decide
  unfold targetTypeToDensity
  dsimp only
  rw [h1, h2]
  norm_num

/-- C2 amended: keyword matching is case insensitive substring matching with
the first matching keyword winning, but on "galaxy cluster" the first match
is "galaxy", so the default snapshot resolves density to 0.8 (the "galaxy"
value), not 0.6; "cluster" alone still resolves to 0.6.  Harmonic count
resolves to the NIRCam lookup value 3 and the filter cutoff to
`decToFilterCutoff (-73.45)` as claimed. -/
theorem mapObservation_default_scenario :
    (mapObservation DEFAULT_OBSERVATION).density = 0.8 ∧
    targetTypeToDensity "cluster" = 0.6 ∧
    targetTypeToDensity "GALAXY CLUSTER" = targetTypeToDensity "galaxy cluster" ∧
    (mapObservation DEFAULT_OBSERVATION).harmonicCount = 3 ∧
    (mapObservation DEFAULT_OBSERVATION).filterCutoffHz = decToFilterCutoff (-73.45) := by
  have h1 : strContains (jsToLower "galaxy cluster") "nebula" = false := by decide
  have h2 : strContains (jsToLower "galaxy cluster") "galaxy" = true := by decide
  have hc1 : strContains (jsToLower "cluster") "nebula" = false := by decide
  have hc2 : strContains (jsToLower "cluster") "galaxy" = false := by decide
  have hc3 : strContains (jsToLower "cluster") "field" = false := by decide
  have hc4 : strContains (jsToLower "cluster") "cluster" = true := by decide
  have hl : jsToLower "GALAXY CLUSTER" = jsToLower "galaxy cluster" := by decide
  refine ⟨?_, ?_, ?_, by decide, rfl⟩
  · show targetTypeToDensity "galaxy cluster" = 0.8
    unfold targetTypeToDensity
    dsimp only
    rw [h1, h2]
    norm_num
  · unfold targetTypeToDensity
    dsimp only
    rw [hc1, hc2, hc3, hc4]
    norm_num
  · unfold targetTypeToDensity
    dsimp only
    rw [hl]

/-- C9: over the declination range [-90, 90] the filter cutoff is
monotonically non decreasing and stays within the documented bounds, 200 Hz
at -90 degrees up to 1600 Hz at +90 degrees. -/
theorem decToFilterCutoff_monotone_bounded :
    (∀ d1 d2 : ℝ, -90 ≤ d1 → d1 ≤ d2 → d2 ≤ 90 →
      decToFilterCutoff d1 ≤ decToFilterCutoff d2) ∧
    (∀ d : ℝ, -90 ≤ d → d ≤ 90 →
      200 ≤ decToFilterCutoff d ∧ decToFilterCutoff d ≤ 1600) := by
  have h18 : (1 : ℝ) ≤ 8 := by norm_num
  constructor
  · intro d1 d2 _ h12 _
    unfold decToFilterCutoff
    have ht : (d1 + 90) / 180 ≤ (d2 + 90) / 180 := by
      apply (div_le_div_iff_of_pos_right (by norm_num : (0 : ℝ) < 180)).mpr
      linarith
    have := Real.rpow_le_rpow_of_exponent_le h18 ht
    nlinarith
  · intro d hlo hhi
    unfold decToFilterCutoff
    have ht0 : 0 ≤ (d + 90) / 180 := div_nonneg (by linarith) (by norm_num)
    have ht1 : (d + 90) / 180 ≤ 1 := by
      rw [div_le_one (by norm_num : (0 : ℝ) < 180)]
      linarith
    have hlow : (1 : ℝ) ≤ (8 : ℝ) ^ ((d + 90) / 180) := by
      have := Real.rpow_le_rpow_of_exponent_le h18 ht0
      rwa [Real.rpow_zero] at this
    have hhigh : (8 : ℝ) ^ ((d + 90) / 180) ≤ 8 := by
      have := Real.rpow_le_rpow_of_exponent_le h18 ht1
      rwa [Real.rpow_one] at this
    constructor <;> nlinarith

/-- C9 witness: the main theorem applied at the concrete declinations 0 and
45 for monotonicity and -73.45 for the bounds. -/
theorem decToFilterCutoff_monotone_bounded_witness :
    decToFilterCutoff 0 ≤ decToFilterCutoff 45 ∧
    200 ≤ decToFilterCutoff (-73.45) ∧ decToFilterCutoff (-73.45) ≤ 1600 :=
  ⟨decToFilterCutoff_monotone_bounded.1 0 45 (by norm_num) (by norm_num) (by norm_num),
   (decToFilterCutoff_monotone_bounded.2 (-73.45) (by norm_num) (by norm_num)).1,
   (decToFilterCutoff_monotone_bounded.2 (-73.45) (by norm_num) (by norm_num)).2⟩

/-- C8: counterexample.  The claim says the proxy always responds 200 with
an X-Cache header; the POST variant (part_000) responds 502 with no X-Cache
header when the upstream fetch rejects and no cache exists. -/
theorem handlerPost_fetchError_cex :
    (handlerPost 0 { cachedBody := none, cacheTime := 0 } .fetchFailed).1.status = 502 ∧
    (handlerPost 0 { cachedBody := none, cacheTime := 0 } .fetchFailed).1.xCache = none := by
  exact ⟨rfl, rfl⟩

/-- C8 amended: the GET variant (part_001) always responds 200 for GET
requests, with permissive CORS and an X-Cache header among HIT, MISS, STALE
and FALLBACK; fresh hits serve the cached body immediately, and a rejected
upstream fetch serves the stale cached body when one exists and the
hardcoded single observation fallback payload otherwise.  Non GET requests
get 405 with no X-Cache header, and the POST variant (part_000) forwards the
upstream status verbatim and answers 502 with no X-Cache on a rejected
fetch. -/
theorem handlerGet_always_ok :
    (∀ (now : ℤ) (st : ProxyCache) (up : Upstream),
      (handlerGet "GET" now st up).1.status = 200 ∧
      (handlerGet "GET" now st up).1.corsStar = true ∧
      ((handlerGet "GET" now st up).1.xCache = some "HIT" ∨
       (handlerGet "GET" now st up).1.xCache = some "MISS" ∨
       (handlerGet "GET" now st up).1.xCache = some "STALE" ∨
       (handlerGet "GET" now st up).1.xCache = some "FALLBACK")) ∧
    (∀ (now : ℤ) (st : ProxyCache) (up : Upstream) (body : String),
      st.cachedBody = some body → now - st.cacheTime < CACHE_TTL →
      (handlerGet "GET" now st up).1.xCache = some "HIT" ∧
      (handlerGet "GET" now st up).1.body = body) ∧
    (∀ (now : ℤ) (st : ProxyCache) (stale : String),
      cacheFresh st now = false → st.cachedBody = some stale →
      (handlerGet "GET" now st .fetchFailed).1.xCache = some "STALE" ∧
      (handlerGet "GET" now st .fetchFailed).1.body = stale) ∧
    (∀ (now : ℤ) (st : ProxyCache),
      st.cachedBody = none →
      (handlerGet "GET" now st .fetchFailed).1.xCache = some "FALLBACK" ∧
      (handlerGet "GET" now st .fetchFailed).1.body = FALLBACK_BODY) ∧
    (∀ (now : ℤ) (st : ProxyCache) (method : String),
      method ≠ "GET" →
      (handlerGet method now st .fetchFailed).1.status = 405 ∧
      (handlerGet method now st .fetchFailed).1.xCache = none) ∧
    (∀ (now : ℤ) (st : ProxyCache) (status : ℕ) (body : String),
      cacheFresh st now = false →
      (handlerPost now st (.ok status body)).1.status = status) ∧
    (∀ (now : ℤ) (st : ProxyCache),
      cacheFresh st now = false →
      (handlerPost now st .fetchFailed).1.status = 502 ∧
      (handlerPost now st .fetchFailed).1.xCache = none) := by
  refine ⟨?_, ?_, ?_, ?_, ?_, ?_, ?_⟩
  · intro now st up
    by_cases hf : cacheFresh st now
    · simp [handlerGet, hf]
    · cases up with
      | ok status body =>
        by_cases hok : upstreamOk status
        · simp [handlerGet, hf, hok]
        · cases h : st.cachedBody with
          | some cached => simp [handlerGet, hf, hok, h]
          | none => simp [handlerGet, hf, hok, h]
      | fetchFailed =>
        cases h : st.cachedBody with
        | some cached => simp [handlerGet, hf, h]
        | none => simp [handlerGet, hf, h]
  · intro now st up body hb ht
    have hf : cacheFresh st now = true := by
      unfold cacheFresh
      rw [hb]
      simp [ht]
    simp [handlerGet, hf, hb]
  · intro now st stale hf hb
    simp [handlerGet, hf, hb]
  · intro now st hb
    have hf : cacheFresh st now = false := by
      unfold cacheFresh
      rw [hb]
      rfl
    simp [handlerGet, hf, hb]
  · intro now st method hm
    simp [handlerGet, hm]
  · intro now st status body hf
    simp [handlerPost, hf]
  · intro now st hf
    simp [handlerPost, hf]

/-- C8 witness: the amended theorem applied at a concrete stale cache state
with a rejected upstream fetch, and at a concrete non GET request. -/
theorem handlerGet_always_ok_witness :
    ((handlerGet "GET" 600000 { cachedBody := some "olddata", cacheTime := 0 }
        .fetchFailed).1.xCache = some "STALE" ∧
     (handlerGet "GET" 600000 { cachedBody := some "olddata", cacheTime := 0 }
        .fetchFailed).1.body = "olddata") ∧
    ((handlerGet "POST" 0 { cachedBody := none, cacheTime := 0 }
        .fetchFailed).1.status = 405) :=
  ⟨handlerGet_always_ok.2.2.1 600000 { cachedBody := some "olddata", cacheTime := 0 }
      "olddata" (by decide) rfl,
   (handlerGet_always_ok.2.2.2.2.1 0 { cachedBody := none, cacheTime := 0 }
      "POST" (by decide)).1⟩

/-! ## Engine helper lemmas -/

/-- Evaluation of the unit clamp on a non positive argument. -/
theorem clamp01_of_nonpos {x : ℝ} (h : x ≤ 0) : max 0 (min 1 x) = 0 := by
  rw [min_eq_right (h.trans (by norm_num)), max_eq_left h]

/-- Evaluation of the unit clamp inside the unit interval. -/
theorem clamp01_of_mem {x : ℝ} (h0 : 0 ≤ x) (h1 : x ≤ 1) :
    max 0 (min 1 x) = x := by
  rw [min_eq_right h1, max_eq_right h0]

/-- Evaluation of the unit clamp above one. -/
theorem clamp01_of_ge {x : ℝ} (h : 1 ≤ x) : max 0 (min 1 x) = 1 := by
  rw [min_eq_left h, max_eq_right (by norm_num)]

/-- The unit clamp lands in the unit interval. -/
theorem clamp01_mem (x : ℝ) : 0 ≤ max 0 (min 1 x) ∧ max 0 (min 1 x) ≤ 1 :=
  ⟨le_max_left _ _, max_le (by norm_num) (min_le_left _ _)⟩

/-- The clamp is the identity inside the interval. -/
theorem clamp_of_mem {v lo hi : ℝ} (h0 : lo ≤ v) (h1 : v ≤ hi) :
    clamp v lo hi = v := by
  unfold clamp
  rw [min_eq_right h1, max_eq_right h0]

/-- The clamp is idempotent. -/
theorem clamp_idem {v lo hi : ℝ} (h : lo ≤ hi) :
    clamp (clamp v lo hi) lo hi = clamp v lo hi :=
  clamp_of_mem (lo_le_clamp v lo hi) (clamp_le_hi h)

/-- Enumeration of `List.finRange 9`. -/
theorem finRange9_eq :
    List.finRange 9 = [0, 1, 2, 3, 4, 5, 6, 7, 8] := by decide

/-- Enumeration of `List.finRange 6`. -/
theorem finRange6_eq :
    List.finRange 6 = [0, 1, 2, 3, 4, 5] := by decide

/-! ## Claim theorems for the engine -/

/-- C4: counterexample.  In the 4 voice variant, voice 1 already has
positive presence at zoom 0.01 — so its threshold is below 0.01 — yet its
presence at zoom 0.13 is 0.52, not 1, although 0.13 is more than 0.12 above
the threshold.  The presence window of that variant is 0.25 wide, not 0.12
as the claim states for every voice. -/
theorem voicePresence4_window_cex :
    0 < voicePresence4 (1 / 100) ⟨1, by norm_num⟩ ∧
    voicePresence4 (13 / 100) ⟨1, by norm_num⟩ ≠ 1 := by
  unfold voicePresence4
  constructor
  · rw [show ((1 : ℝ) / 100) * 4 - ((⟨1, by norm_num⟩ : Fin 4) : ℝ) + 1 = 0.04 by
      push_cast
      norm_num]
    rw [clamp01_of_mem (by norm_num) (by norm_num)]
    norm_num
  · rw [show ((13 : ℝ) / 100) * 4 - ((⟨1, by norm_num⟩ : Fin 4) : ℝ) + 1 = 0.52 by
      push_cast
      norm_num]
    rw [clamp01_of_mem (by norm_num) (by norm_num)]
    norm_num

/-- C4 amended: in both variants voice 0 has presence 1 for every zoom in
[0, 1], and each voice has presence 0 below its threshold, a linear ramp to
1 across a fixed window above it, and presence 1 beyond the window — but the
window width is 0.12 only in the 9 voice engine; the 4 voice variant ramps
over a window of width 0.25 (threshold (i - 1) / 4, slope 4). -/
theorem voicePresence_characterised :
    (∀ value : ℝ, 0 ≤ value → value ≤ 1 →
      voicePresence value 0 = 1 ∧ voicePresence4 value 0 = 1) ∧
    (∀ (i : Fin 9) (value : ℝ),
      (value ≤ zoomThresholds i → voicePresence value i = 0) ∧
      (zoomThresholds i ≤ value → value ≤ zoomThresholds i + 0.12 →
        voicePresence value i = (value - zoomThresholds i) / 0.12) ∧
      (zoomThresholds i + 0.12 ≤ value → voicePresence value i = 1)) ∧
    (∀ (i : Fin 4) (value : ℝ),
      (value ≤ ((i : ℝ) - 1) / 4 → voicePresence4 value i = 0) ∧
      (((i : ℝ) - 1) / 4 ≤ value → value ≤ ((i : ℝ) - 1) / 4 + 1 / 4 →
        voicePresence4 value i = (value - ((i : ℝ) - 1) / 4) * 4) ∧
      (((i : ℝ) - 1) / 4 + 1 / 4 ≤ value → voicePresence4 value i = 1)) := by
  refine ⟨?_, ?_, ?_⟩
  · intro value h0 _
    constructor
    · unfold voicePresence
      have hth : zoomThresholds 0 = -0.12 := rfl
      rw [hth]
      apply clamp01_of_ge
      rw [le_div_iff₀ (by norm_num : (0 : ℝ) < 0.12)]
      linarith
    · unfold voicePresence4
      apply clamp01_of_ge
      have : ((0 : Fin 4) : ℝ) = 0 := by norm_num
      rw [this]
      linarith
  · intro i value
    refine ⟨?_, ?_, ?_⟩
    · intro h
      unfold voicePresence
      apply clamp01_of_nonpos
      apply div_nonpos_of_nonpos_of_nonneg (sub_nonpos.mpr h)
      norm_num
    · intro h1 h2
      unfold voicePresence
      apply clamp01_of_mem
      · exact div_nonneg (sub_nonneg.mpr h1) (by norm_num)
      · rw [div_le_one (by norm_num : (0 : ℝ) < 0.12)]
        linarith
    · intro h
      unfold voicePresence
      apply clamp01_of_ge
      rw [le_div_iff₀ (by norm_num : (0 : ℝ) < 0.12)]
      linarith
  · intro i value
    refine ⟨?_, ?_, ?_⟩
    · intro h
      unfold voicePresence4
      apply clamp01_of_nonpos
      linarith
    · intro h1 h2
      unfold voicePresence4
      rw [show (value - ((i : ℝ) - 1) / 4) * 4 = value * 4 - (i : ℝ) + 1 by ring]
      exact clamp01_of_mem (by linarith) (by linarith)
    · intro h
      unfold voicePresence4
      apply clamp01_of_ge
      linarith

/-- C4 witness: the amended theorem applied at zoom 0.5 for voice 0, and at
zoom 0.16 for voice 1, which sits inside the ramp window of the 9 voice
engine (threshold 0.1). -/
theorem voicePresence_characterised_witness :
    ((0 : ℝ) ≤ 0.5 ∧ (0.5 : ℝ) ≤ 1 ∧ voicePresence 0.5 0 = 1) ∧
    (zoomThresholds 1 ≤ 0.16 ∧ (0.16 : ℝ) ≤ zoomThresholds 1 + 0.12 ∧
      voicePresence 0.16 1 = (0.16 - zoomThresholds 1) / 0.12) :=
  ⟨⟨by norm_num, by norm_num,
    (voicePresence_characterised.1 0.5 (by norm_num) (by norm_num)).1⟩,
   ⟨by rw [show zoomThresholds 1 = 0.1 from rfl]; norm_num,
    by rw [show zoomThresholds 1 = 0.1 from rfl]; norm_num,
    (voicePresence_characterised.2.1 1 0.16).2.1
      (by rw [show zoomThresholds 1 = 0.1 from rfl]; norm_num)
      (by rw [show zoomThresholds 1 = 0.1 from rfl]; norm_num)⟩⟩

/-- MASTER mix level evaluates to 0.12. -/
theorem MASTER_LEVEL_eq : MASTER_LEVEL = 0.12 := by
  unfold MASTER_LEVEL
  rw [show (9 : ℝ) = 3 ^ 2 by norm_num, Real.sqrt_sq (by norm_num : (0 : ℝ) ≤ 3)]
  norm_num

/-- Base gains lie in the unit interval. -/
theorem zoomBaseGains_mem (i : Fin 9) :
    0 ≤ zoomBaseGains i ∧ zoomBaseGains i ≤ 1 := by
  fin_cases i <;> exact ⟨by norm_num [zoomBaseGains], by norm_num [zoomBaseGains]⟩

/-- Zoom presence lies in the unit interval. -/
theorem voicePresence_mem (value : ℝ) (i : Fin 9) :
    0 ≤ voicePresence value i ∧ voicePresence value i ≤ 1 :=
  clamp01_mem _

/-- The unfold factor lies in the unit interval when the unfold amount
does. -/
theorem unfoldFactor_mem {u : ℝ} (h0 : 0 ≤ u) (h1 : u ≤ 1) (i : Fin 9) :
    0 ≤ unfoldFactor u i ∧ unfoldFactor u i ≤ 1 := by
  unfold unfoldFactor
  split_ifs with h
  · constructor <;> linarith
  · norm_num

/-- C10: each per voice gain target issued by the zoom application is the
product of master level, base gain, zoom presence, density weight and unfold
factor, and lies in [0, 0.36 / sqrt 9] whenever the stored density weight
and unfold amount are in [0, 1]; both density writers (observation data and
aim coordinates) only store weights in [0, 1], and the evolution tick clamps
the unfold amount to [0, 1]. -/
theorem voiceGain_product_bounded :
    (∀ (st : EngineState) (value : ℝ) (i : Fin 9),
      AudioEvent.setTarget (.voiceGain i) (voiceGainTarget st value i) 0.4 ∈
        applyZoomEvents st value) ∧
    (∀ (st : EngineState) (value : ℝ) (i : Fin 9),
      0 ≤ st.voiceDensity i → st.voiceDensity i ≤ 1 →
      0 ≤ st.unfoldAmount → st.unfoldAmount ≤ 1 →
      0 ≤ voiceGainTarget st value i ∧
      voiceGainTarget st value i ≤ 0.36 / Real.sqrt 9) ∧
    (∀ (st : EngineState) (obs : ObservationData) (i : Fin 9),
      st.ctxSet = true → st.isStarted = true →
      0 ≤ (updateFromData st obs).1.voiceDensity i ∧
      (updateFromData st obs).1.voiceDensity i ≤ 1) ∧
    (∀ (st : EngineState) (ra dec : ℝ) (i : Fin 9),
      st.ctxSet = true → st.isStarted = true →
      0 ≤ (updateFromCoords st ra dec).1.voiceDensity i ∧
      (updateFromCoords st ra dec).1.voiceDensity i ≤ 1) ∧
    (∀ (st : EngineState) (inp : EvolveInputs),
      st.ctxSet = true → st.isStarted = true →
      0 ≤ (evolveTick st inp).1.unfoldAmount ∧
      (evolveTick st inp).1.unfoldAmount ≤ 1) := by
  refine ⟨?_, ?_, ?_, ?_, ?_⟩
  · intro st value i
    unfold applyZoomEvents
    refine List.mem_append.mpr (Or.inl ?_)
    refine List.mem_append.mpr (Or.inl ?_)
    refine List.mem_append.mpr (Or.inl ?_)
    refine List.mem_flatMap.mpr ⟨i, List.mem_finRange i, ?_⟩
    simp
  · intro st value i hd0 hd1 hu0 hu1
    have m0 : (0 : ℝ) ≤ MASTER_LEVEL := by rw [MASTER_LEVEL_eq]; norm_num
    obtain ⟨hb0, hb1⟩ := zoomBaseGains_mem i
    obtain ⟨hp0, hp1⟩ := voicePresence_mem value i
    obtain ⟨hf0, hf1⟩ := unfoldFactor_mem hu0 hu1 i
    have s1 : 0 ≤ MASTER_LEVEL * zoomBaseGains i := mul_nonneg m0 hb0
    have s2 : 0 ≤ MASTER_LEVEL * zoomBaseGains i * voicePresence value i :=
      mul_nonneg s1 hp0
    have s3 : 0 ≤ MASTER_LEVEL * zoomBaseGains i * voicePresence value i *
        st.voiceDensity i := mul_nonneg s2 hd0
    unfold voiceGainTarget
    refine ⟨mul_nonneg s3 hf0, ?_⟩
    calc MASTER_LEVEL * zoomBaseGains i * voicePresence value i *
          st.voiceDensity i * unfoldFactor st.unfoldAmount i
        ≤ MASTER_LEVEL * zoomBaseGains i * voicePresence value i *
          st.voiceDensity i := mul_le_of_le_one_right s3 hf1
      _ ≤ MASTER_LEVEL * zoomBaseGains i * voicePresence value i :=
          mul_le_of_le_one_right s2 hd1
      _ ≤ MASTER_LEVEL * zoomBaseGains i := mul_le_of_le_one_right s1 hp1
      _ ≤ MASTER_LEVEL := mul_le_of_le_one_right m0 hb1
      _ = 0.36 / Real.sqrt 9 := rfl
  · intro st obs i hc hs
    have hcond : (st.ctxSet && st.isStarted) = true := by rw [hc, hs]; rfl
    simp only [updateFromData, hcond, if_true]
    obtain ⟨hlo, hhi⟩ := targetTypeToDensity_bounds obs.targetType
    constructor
    · split_ifs
      · show 0 ≤ (mapObservation obs).density
        show 0 ≤ targetTypeToDensity obs.targetType
        linarith
      · norm_num
    · split_ifs
      · exact hhi
      · norm_num
  · intro st ra dec i hc hs
    have hcond : (st.ctxSet && st.isStarted) = true := by rw [hc, hs]; rfl
    simp only [updateFromCoords, hcond, if_true]
    obtain ⟨ht0, ht1⟩ := clamp01_mem ((dec + 90) / 180)
    have hthresh : (0 : ℤ) ≤ round (max 0 (min 1 ((dec + 90) / 180)) * (9 - 1)) := by
      rw [round_eq]
      apply Int.le_floor.mpr
      push_cast
      nlinarith
    have hcast : (0 : ℝ) ≤
        ((round (max 0 (min 1 ((dec + 90) / 180)) * (9 - 1)) : ℤ) : ℝ) := by
      exact_mod_cast hthresh
    have hsq : 1 ≤ Real.sqrt
        (((round (max 0 (min 1 ((dec + 90) / 180)) * (9 - 1)) : ℤ) : ℝ) + 1) := by
      calc (1 : ℝ) = Real.sqrt 1 := Real.sqrt_one.symm
        _ ≤ _ := Real.sqrt_le_sqrt (by linarith)
    have hsqpos : (0 : ℝ) < Real.sqrt
        (((round (max 0 (min 1 ((dec + 90) / 180)) * (9 - 1)) : ℤ) : ℝ) + 1) :=
      lt_of_lt_of_le zero_lt_one hsq
    constructor
    · split_ifs
      · positivity
      · norm_num
    · split_ifs
      · rw [div_le_one hsqpos]
        exact hsq
      · norm_num
  · intro st inp hc hs
    have hcond : (st.ctxSet && st.isStarted) = true := by rw [hc, hs]; rfl
    simp only [evolveTick, hcond, if_true]
    exact ⟨lo_le_clamp _ _ _, clamp_le_hi (by norm_num)⟩

/-- C10 witness: the bound of the main theorem applied at the initial state
(density weights 1, unfold amount 0.25) with zoom 0.5 and voice 0. -/
theorem voiceGain_product_bounded_witness :
    (0 : ℝ) ≤ initState.voiceDensity 0 ∧ initState.voiceDensity 0 ≤ 1 ∧
    0 ≤ initState.unfoldAmount ∧ initState.unfoldAmount ≤ 1 ∧
    (0 ≤ voiceGainTarget initState 0.5 0 ∧
      voiceGainTarget initState 0.5 0 ≤ 0.36 / Real.sqrt 9) :=
  ⟨by norm_num [initState], by norm_num [initState],
   by norm_num [initState], by norm_num [initState],
   voiceGain_product_bounded.2.1 initState 0.5 0
     (by norm_num [initState]) (by norm_num [initState])
     (by norm_num [initState]) (by norm_num [initState])⟩

/-- Feedback targets distribute over trace concatenation. -/
theorem grainFbTargets_append (a b : List AudioEvent) :
    grainFbTargets (a ++ b) = grainFbTargets a ++ grainFbTargets b :=
  List.filterMap_append a b _

/-- Feedback targets of one zoom application: 0.2 + value * 0.3 on all six
lines. -/
theorem grainFbTargets_applyZoom (st : EngineState) (value : ℝ) :
    grainFbTargets (applyZoomEvents st value) =
      List.replicate 6 (0.2 + value * 0.3) := rfl

/-- Feedback targets of the data update before its zoom application. -/
theorem grainFbTargets_dataPre (st : EngineState) (obs : ObservationData) :
    grainFbTargets (updateFromDataPre st obs) =
      List.replicate 6 (0.2 + (mapObservation obs).density * 0.3) := by
  cases hco : st.cutoffOverride <;>
    simp [updateFromDataPre, hco, grainFbTargets, List.replicate, finRange6_eq]

/-- Feedback targets of the coordinate update before its zoom application. -/
theorem grainFbTargets_coordsPre (st : EngineState) (ra dec : ℝ) :
    grainFbTargets (updateFromCoordsPre st ra dec) =
      List.replicate 6 (0.15 +
        (max 0 (min 1 (ra / 360)) * 0.5 + max 0 (min 1 ((dec + 90) / 180)) * 0.3)
        * 0.4) := by
  cases hco : st.cutoffOverride <;>
    simp [updateFromCoordsPre, hco, grainFbTargets, List.replicate, finRange6_eq]

/-- Feedback targets of one evolution tick before its zoom application: each
line clamps its random walk step to [0.08, 0.9]. -/
theorem grainFbTargets_evolvePre (st : EngineState) (inp : EvolveInputs) :
    grainFbTargets (evolveTickPre st inp) =
      (List.finRange 6).map (fun i =>
        clamp (inp.curFb i + (inp.rFb i * 2 - 1) *
          (0.03 + (0.15 + st.pulseAmount * 0.85) * 0.12)) 0.08 0.9) := rfl

/-- C3: every grain line feedback gain target issued by the Scatter macro,
the Space macro, the Zoom application, the data update, the coordinate
update or an evolution tick stays at or below the 0.9 safety ceiling, for
macro inputs in [0, 1] and a stored zoom in range (the zoom is only ever
stored clamped). -/
theorem grainFeedback_ceiling :
    (∀ (st : EngineState) (v : ℝ), 0 ≤ v → v ≤ 1 →
      ∀ x ∈ grainFbTargets (setScatter st v).2, x ≤ 0.9) ∧
    (∀ (st : EngineState) (v : ℝ), 0 ≤ v → v ≤ 1 →
      ∀ x ∈ grainFbTargets (setSpace st v).2, x ≤ 0.9) ∧
    (∀ (st : EngineState) (v : ℝ),
      ∀ x ∈ grainFbTargets (setZoom st v).2, x ≤ 0.9) ∧
    (∀ (st : EngineState) (obs : ObservationData), st.zoomNorm ≤ 1 →
      ∀ x ∈ grainFbTargets (updateFromData st obs).2, x ≤ 0.9) ∧
    (∀ (st : EngineState) (ra dec : ℝ), st.zoomNorm ≤ 1 →
      ∀ x ∈ grainFbTargets (updateFromCoords st ra dec).2, x ≤ 0.9) ∧
    (∀ (st : EngineState) (inp : EvolveInputs), st.zoomNorm ≤ 1 →
      ∀ x ∈ grainFbTargets (evolveTick st inp).2, x ≤ 0.9) := by
  refine ⟨?_, ?_, ?_, ?_, ?_, ?_⟩
  · intro st v h0 h1 x hx
    by_cases hc : st.ctxSet
    · simp [setScatter, hc, grainFbTargets, finRange6_eq] at hx
      rw [hx]
      linarith
    · simp [setScatter, hc, grainFbTargets] at hx
  · intro st v h0 h1 x hx
    by_cases hc : st.ctxSet
    · simp [setSpace, hc, grainFbTargets, finRange6_eq] at hx
      rw [hx]
      linarith
    · simp [setSpace, hc, grainFbTargets] at hx
  · intro st v x hx
    by_cases hc : st.ctxSet && st.isStarted
    · simp only [setZoom, hc, if_true] at hx
      rw [grainFbTargets_applyZoom] at hx
      have hz : clamp v 0 1 ≤ 1 := clamp_le_hi zero_le_one
      have := List.eq_of_mem_replicate hx
      rw [this]
      linarith
    · simp [setZoom, hc, grainFbTargets] at hx
  · intro st obs hz x hx
    by_cases hc : st.ctxSet && st.isStarted
    · simp only [updateFromData, hc, if_true] at hx
      rw [grainFbTargets_append, grainFbTargets_dataPre,
        grainFbTargets_applyZoom] at hx
      obtain ⟨hlo, hhi⟩ := targetTypeToDensity_bounds obs.targetType
      rcases List.mem_append.mp hx with hm | hm
      · have := List.eq_of_mem_replicate hm
        rw [this]
        show 0.2 + (mapObservation obs).density * 0.3 ≤ 0.9
        show 0.2 + targetTypeToDensity obs.targetType * 0.3 ≤ 0.9
        linarith
      · have := List.eq_of_mem_replicate hm
        rw [this]
        linarith
    · simp [updateFromData, hc, grainFbTargets] at hx
  · intro st ra dec hz x hx
    by_cases hc : st.ctxSet && st.isStarted
    · simp only [updateFromCoords, hc, if_true] at hx
      rw [grainFbTargets_append, grainFbTargets_coordsPre,
        grainFbTargets_applyZoom] at hx
      obtain ⟨hr0, hr1⟩ := clamp01_mem (ra / 360)
      obtain ⟨hd0, hd1⟩ := clamp01_mem ((dec + 90) / 180)
      rcases List.mem_append.mp hx with hm | hm
      · have := List.eq_of_mem_replicate hm
        rw [this]
        nlinarith
      · have := List.eq_of_mem_replicate hm
        rw [this]
        linarith
    · simp [updateFromCoords, hc, grainFbTargets] at hx
  · intro st inp hz x hx
    by_cases hc : st.ctxSet && st.isStarted
    · simp only [evolveTick, hc, if_true] at hx
      rw [grainFbTargets_append, grainFbTargets_evolvePre,
        grainFbTargets_applyZoom] at hx
      rcases List.mem_append.mp hx with hm | hm
      · obtain ⟨i, _, hi⟩ := List.mem_map.mp hm
        rw [← hi]
        exact clamp_le_hi (by norm_num)
      · have := List.eq_of_mem_replicate hm
        rw [this]
        linarith
    · simp [evolveTick, hc, grainFbTargets] at hx

/-- C3 witness: the ceiling from the main theorem applied to the first
feedback target the Scatter macro issues at its maximum in range input 1 on
a started engine. -/
theorem grainFeedback_ceiling_witness :
    (0 : ℝ) ≤ 1 ∧ (1 : ℝ) ≤ 1 ∧ (0.05 + 1 * 0.55 : ℝ) ≤ 0.9 :=
  ⟨by norm_num, by norm_num,
   grainFeedback_ceiling.1 { initState with ctxSet := true, isStarted := true }
     1 (by norm_num) (by norm_num) (0.05 + 1 * 0.55)
     (by simp [setScatter, initState, grainFbTargets, finRange6_eq])⟩

/-- Clamp to the unit interval is 1 above 1. -/
theorem clamp01_eq_one {v : ℝ} (h : 1 ≤ v) : clamp v 0 1 = 1 := by
  unfold clamp
  rw [min_eq_left h, max_eq_right zero_le_one]

/-- C5: counterexample.  The Volume macro does not clamp: input 2 issues a
master gain target computed from the raw value, which differs from the
target the clamped input would give. -/
theorem setVolume_unclamped_cex :
    (setVolume { initState with ctxSet := true, isStarted := true } 2).2 =
      [.setTarget .masterGain (2 * 0.82) 0.1] ∧
    (2 * 0.82 : ℝ) ≠ clamp 2 0 1 * 0.82 := by
  constructor
  · rfl
  · rw [clamp01_eq_one (by norm_num)]
    norm_num

/-- C5 amended: only the Pulse and Zoom macros clamp their input to [0, 1]
before use (their behaviour on any input equals their behaviour on the
clamped input); the Space macro clamps only the stored blend, while Volume,
Space, Colour and Scatter compute their issued audio parameter targets from
the raw value, so any input above 1 issues targets different from those of
the clamped input. -/
theorem macroClamp_partial :
    (∀ (st : EngineState) (v : ℝ), setPulse st v = setPulse st (clamp v 0 1)) ∧
    (∀ (st : EngineState) (v : ℝ), setZoom st v = setZoom st (clamp v 0 1)) ∧
    (∀ (st : EngineState) (v : ℝ), (setSpace st v).1.blend = clamp v 0 1) ∧
    (∀ (st : EngineState) (v : ℝ), st.ctxSet = true → 1 < v →
      (setVolume st v).2 ≠ (setVolume st (clamp v 0 1)).2) ∧
    (∀ (st : EngineState) (v : ℝ), st.ctxSet = true → 1 < v →
      (setSpace st v).2 ≠ (setSpace st (clamp v 0 1)).2) ∧
    (∀ (st : EngineState) (v : ℝ), st.ctxSet = true → 1 < v →
      (setScatter st v).2 ≠ (setScatter st (clamp v 0 1)).2) ∧
    (∀ (st : EngineState) (v : ℝ), st.ctxSet = true → 1 < v →
      (setColour st v).2 ≠ (setColour st (clamp v 0 1)).2) := by
  refine ⟨?_, ?_, ?_, ?_, ?_, ?_, ?_⟩
  · intro st v
    unfold setPulse
    rw [clamp_idem zero_le_one]
  · intro st v
    unfold setZoom
    rw [clamp_idem zero_le_one]
  · intro st v
    unfold setSpace
    split_ifs <;> rfl
  · intro st v hc hv
    simp only [setVolume, hc, if_true]
    rw [clamp01_eq_one hv.le]
    intro h
    rw [List.cons.injEq, AudioEvent.setTarget.injEq] at h
    have := h.1.2.1
    nlinarith
  · intro st v hc hv
    simp only [setSpace, hc, if_true]
    rw [clamp01_eq_one hv.le]
    intro h
    have h2 := congrArg List.head? h
    simp only [List.cons_append, List.head?_cons, Option.some.injEq,
      AudioEvent.setTarget.injEq] at h2
    nlinarith [h2.2.1]
  · intro st v hc hv
    simp only [setScatter, hc, if_true]
    rw [clamp01_eq_one hv.le]
    intro h
    have h2 := congrArg List.head? h
    simp only [finRange6_eq, List.flatMap_cons, List.cons_append,
      List.head?_cons, Option.some.injEq, AudioEvent.setTarget.injEq] at h2
    nlinarith [h2.2.1]
  · intro st v hc hv
    simp only [setColour, hc, if_true]
    rw [clamp01_eq_one hv.le]
    intro h
    rw [List.cons.injEq] at h
    have h2 := h.2
    rw [List.cons.injEq] at h2
    have h3 := h2.1
    rw [AudioEvent.setTarget.injEq] at h3
    nlinarith [h3.2.1]

/-- C5 witness: the amended theorem applied to the Volume macro at input 2
on an engine whose context exists. -/
theorem macroClamp_partial_witness :
    ({ initState with ctxSet := true } : EngineState).ctxSet = true ∧
    (1 : ℝ) < 2 ∧
    (setVolume { initState with ctxSet := true } 2).2 ≠
      (setVolume { initState with ctxSet := true } (clamp 2 0 1)).2 :=
  ⟨rfl, by norm_num,
   macroClamp_partial.2.2.2.1 { initState with ctxSet := true } 2 rfl (by norm_num)⟩

/-- C6: counterexample.  After start() followed by stop() the engine is not
started, yet the Volume macro — guarded only on the surviving audio context —
still schedules a master gain target, so not every public operation on a
stopped engine is a silent no op. -/
theorem stopped_engine_still_schedules_cex :
    (setVolume (stop (start initState
      { driftRate := fun _ => 0, driftDepth := fun _ => 0, gDelay := fun _ => 0,
        gModDepth := fun _ => 0, gModRate := fun _ => 0, gFb := fun _ => 0 }).1).1
      0.5).2 ≠ [] := by
  simp [start, stop, setVolume]

/-- C6 amended: before start() (no context) every public update and macro
operation is a silent no op that schedules nothing; the operations guarded
on the started flag (the two data entry points, Zoom and Chord, and the
evolution tick body) stay no ops after stop() as well — but Volume, Space,
Colour, Scatter and Pulse are guarded only on the context, which survives
stop(), so on a stopped engine they still schedule audio parameter
changes. -/
theorem notStarted_noop :
    (∀ st : EngineState, st.ctxSet = false →
      ∀ (obs : ObservationData) (ra dec v root : ℝ) (mode : String)
        (inp : EvolveInputs),
      (updateFromData st obs).2 = [] ∧
      (updateFromCoords st ra dec).2 = [] ∧
      (setVolume st v).2 = [] ∧
      (setSpace st v).2 = [] ∧
      (setColour st v).2 = [] ∧
      (setScatter st v).2 = [] ∧
      (setPulse st v).2 = [] ∧
      (setZoom st v).2 = [] ∧
      (setChord st root mode).2 = [] ∧
      (evolveTick st inp).2 = []) ∧
    (∀ st : EngineState, st.isStarted = false →
      ∀ (obs : ObservationData) (ra dec v root : ℝ) (mode : String)
        (inp : EvolveInputs),
      (updateFromData st obs).2 = [] ∧
      (updateFromCoords st ra dec).2 = [] ∧
      (setZoom st v).2 = [] ∧
      (setChord st root mode).2 = [] ∧
      (evolveTick st inp).2 = []) ∧
    (∀ (st : EngineState) (v : ℝ), st.ctxSet = true →
      (setVolume st v).2 ≠ [] ∧ (setSpace st v).2 ≠ [] ∧
      (setColour st v).2 ≠ [] ∧ (setScatter st v).2 ≠ [] ∧
      (setPulse st v).2 ≠ []) := by
  refine ⟨?_, ?_, ?_⟩
  · intro st hc obs ra dec v root mode inp
    refine ⟨?_, ?_, ?_, ?_, ?_, ?_, ?_, ?_, ?_, ?_⟩ <;>
      simp [updateFromData, updateFromCoords, setVolume, setSpace, setColour,
        setScatter, setPulse, setZoom, setChord, evolveTick, hc]
  · intro st hs obs ra dec v root mode inp
    refine ⟨?_, ?_, ?_, ?_, ?_⟩ <;>
      simp [updateFromData, updateFromCoords, setZoom, setChord, evolveTick, hs]
  · intro st v hc
    refine ⟨?_, ?_, ?_, ?_, ?_⟩ <;>
      simp [setVolume, setSpace, setColour, setScatter, setPulse, hc, finRange6_eq]

/-- C6 witness: the amended theorem applied to the fresh (never started)
engine state for the data update, Volume and Zoom, and to a state whose
context exists for the still scheduling Volume macro. -/
theorem notStarted_noop_witness :
    initState.ctxSet = false ∧
    (updateFromData initState DEFAULT_OBSERVATION).2 = [] ∧
    (setVolume initState 0.5).2 = [] ∧
    (setZoom initState 0.5).2 = [] ∧
    (setVolume { initState with ctxSet := true } 0.5).2 ≠ [] := by
  have h := notStarted_noop.1 initState rfl DEFAULT_OBSERVATION 0 0 0.5 0 "MAJ"
    { rUnfold := 0, rCut := 0, rQ := 0, rWet := 0, rDry := 0,
      rRate := fun _ => 0, rDepth := fun _ => 0, rFb := fun _ => 0,
      rDrift := fun _ => 0, curFilterFreq := 0, curFilterQ := 0,
      curModDepth := fun _ => 0, curFb := fun _ => 0, curDrift := fun _ => 0 }
  have h3 := notStarted_noop.2.2 { initState with ctxSet := true } 0.5 rfl
  exact ⟨rfl, h.1, h.2.2.1, h.2.2.2.2.2.2.2.1, h3.1⟩

/-- Membership of each per voice gain target in the zoom application
trace. -/
theorem applyZoomEvents_mem_voiceGain (st : EngineState) (value : ℝ) (i : Fin 9) :
    AudioEvent.setTarget (.voiceGain i) (voiceGainTarget st value i) 0.4 ∈
      applyZoomEvents st value := by
  unfold applyZoomEvents
  refine List.mem_append.mpr (Or.inl ?_)
  refine List.mem_append.mpr (Or.inl ?_)
  refine List.mem_append.mpr (Or.inl ?_)
  refine List.mem_flatMap.mpr ⟨i, List.mem_finRange i, ?_⟩
  simp

/-- C7: both external data entry points and every evolution tick issue all
their other parameter writes first and conclude with the zoom application on
the current stored zoom; none of the events before that zoom application
touches a voice gain, and the zoom application itself writes every voice
gain — so zoom driven voice gating is the last writer of voice gains within
any single update. -/
theorem updates_conclude_with_zoom :
    (∀ (st : EngineState) (obs : ObservationData),
      st.ctxSet = true → st.isStarted = true →
      (updateFromData st obs).2 =
        updateFromDataPre st obs ++
          applyZoomEvents (updateFromData st obs).1 st.zoomNorm ∧
      (∀ e ∈ updateFromDataPre st obs, ∀ i : Fin 9, e.param ≠ .voiceGain i) ∧
      (∀ i : Fin 9, ∃ x tc, AudioEvent.setTarget (.voiceGain i) x tc ∈
        applyZoomEvents (updateFromData st obs).1 st.zoomNorm)) ∧
    (∀ (st : EngineState) (ra dec : ℝ),
      st.ctxSet = true → st.isStarted = true →
      (updateFromCoords st ra dec).2 =
        updateFromCoordsPre st ra dec ++
          applyZoomEvents (updateFromCoords st ra dec).1 st.zoomNorm ∧
      (∀ e ∈ updateFromCoordsPre st ra dec, ∀ i : Fin 9, e.param ≠ .voiceGain i)) ∧
    (∀ (st : EngineState) (inp : EvolveInputs),
      st.ctxSet = true → st.isStarted = true →
      (evolveTick st inp).2 =
        evolveTickPre st inp ++
          applyZoomEvents (evolveTick st inp).1 st.zoomNorm ∧
      (∀ e ∈ evolveTickPre st inp, ∀ i : Fin 9, e.param ≠ .voiceGain i)) := by
  refine ⟨?_, ?_, ?_⟩
  · intro st obs hc hs
    have hcond : (st.ctxSet && st.isStarted) = true := by rw [hc, hs]; rfl
    refine ⟨by simp only [updateFromData, hcond, if_true], ?_, ?_⟩
    · intro e he i
      cases hco : st.cutoffOverride with
      | none =>
        simp only [updateFromDataPre, hco, finRange6_eq, List.map_cons,
          List.map_nil, List.cons_append, List.nil_append, List.append_nil] at he
        fin_cases he <;> simp [AudioEvent.param]
      | some c =>
        simp only [updateFromDataPre, hco, finRange6_eq, List.map_cons,
          List.map_nil, List.cons_append, List.nil_append, List.append_nil] at he
        fin_cases he <;> simp [AudioEvent.param]
    · intro i
      exact ⟨_, _, applyZoomEvents_mem_voiceGain _ st.zoomNorm i⟩
  · intro st ra dec hc hs
    have hcond : (st.ctxSet && st.isStarted) = true := by rw [hc, hs]; rfl
    refine ⟨by simp only [updateFromCoords, hcond, if_true], ?_⟩
    intro e he i
    cases hco : st.cutoffOverride with
    | none =>
      simp only [updateFromCoordsPre, hco, finRange6_eq, List.flatMap_cons,
        List.flatMap_nil, List.map_cons, List.map_nil, List.cons_append,
        List.nil_append, List.append_nil] at he
      fin_cases he <;> simp [AudioEvent.param]
    | some c =>
      simp only [updateFromCoordsPre, hco, finRange6_eq, List.flatMap_cons,
        List.flatMap_nil, List.map_cons, List.map_nil, List.cons_append,
        List.nil_append, List.append_nil] at he
      fin_cases he <;> simp [AudioEvent.param]
  · intro st inp hc hs
    have hcond : (st.ctxSet && st.isStarted) = true := by rw [hc, hs]; rfl
    refine ⟨by simp only [evolveTick, hcond, if_true], ?_⟩
    intro e he i
    simp only [evolveTickPre, finRange6_eq, finRange9_eq, List.flatMap_cons,
      List.flatMap_nil, List.map_cons, List.map_nil, List.cons_append,
      List.nil_append, List.append_nil] at he
    fin_cases he <;> simp [AudioEvent.param]

/-- C7 witness: the data entry point conclusion applied on a started engine
at the default observation. -/
theorem updates_conclude_with_zoom_witness :
    ({ initState with ctxSet := true, isStarted := true } : EngineState).ctxSet
      = true ∧
    ({ initState with ctxSet := true, isStarted := true } : EngineState).isStarted
      = true ∧
    (updateFromData { initState with ctxSet := true, isStarted := true }
        DEFAULT_OBSERVATION).2 =
      updateFromDataPre { initState with ctxSet := true, isStarted := true }
          DEFAULT_OBSERVATION ++
        applyZoomEvents
          (updateFromData { initState with ctxSet := true, isStarted := true }
            DEFAULT_OBSERVATION).1
          ({ initState with ctxSet := true, isStarted := true } :
            EngineState).zoomNorm :=
  ⟨rfl, rfl,
   (updates_conclude_with_zoom.1 { initState with ctxSet := true, isStarted := true }
     DEFAULT_OBSERVATION rfl rfl).1⟩

end Webbwave
